import Mathlib

/-!
Shallow embedding of the sns-maker-hub identity and linking state engine
(`src/hub_store.py`, `src/main.py`, `src/naver_client.py`, `src/app_config.py`).

Each SQLite table of `HubStore` is modelled as a list of rows keyed by its
primary key; each store method becomes a pure function from the table (and the
current time, where the Python code reads `time.time()`) to a result together
with the updated table.  Timestamps are modelled as integers; the claims only
compare and add them.
-/

namespace SnsHub

/-- A row of the `telegram_verifications` table (`hub_store.py`, `_init_db`):
nonce is the primary key; `used_at` is the nullable consumed timestamp. -/
structure TelegramVerification where
  nonce : String
  user_id : String
  created_at : Int
  expires_at : Int
  attempt_count : Int
  used_at : Option Int
deriving Repr, DecidableEq

/-- Result of `HubStore.consume_telegram_verification`: the Python method
returns a dict whose `status` key is one of `invalid`, `expired`,
`max_attempts`, `ok`; the `ok` dict also carries nonce, user_id, expires_at. -/
inductive ConsumeResult where
  | invalid
  | expired
  | maxAttempts
  | ok (nonce : String) (user_id : String) (expires_at : Int)
deriving Repr, DecidableEq

/-- The `status` string of the returned dict. -/
def ConsumeResult.status : ConsumeResult → String
  | .invalid => "invalid"
  | .expired => "expired"
  | .maxAttempts => "max_attempts"
  | .ok _ _ _ => "ok"

/-- `DELETE FROM telegram_verifications WHERE nonce = ?`. -/
def deleteNonce (db : List TelegramVerification) (nonce : String) :
    List TelegramVerification :=
  db.filter (fun r => !(r.nonce == nonce))

/-- `SELECT ... FROM telegram_verifications WHERE nonce = ?` (primary-key
lookup, so at most one row). -/
def findNonce (db : List TelegramVerification) (nonce : String) :
    Option TelegramVerification :=
  db.find? (fun r => r.nonce == nonce)

/-- `HubStore.consume_telegram_verification` (hub_store.py lines 162-199):
look the nonce up; absent row is `invalid`; a row with `used_at` set is
deleted and `invalid`; a row past its expiry is deleted and `expired`; a row
at or above `max_attempts` is deleted and `max_attempts`; otherwise the row is
deleted and `ok` is returned with its fields.  (The Python `rowcount != 1`
re-check only fires when a concurrent writer removed the row between the
SELECT and the DELETE; in this sequential embedding the found row is still
present, so the delete always succeeds.) -/
def consume_telegram_verification (db : List TelegramVerification) (now : Int)
    (nonce : String) (max_attempts : Int) :
    ConsumeResult × List TelegramVerification :=
  match findNonce db nonce with
  | none => (.invalid, db)
  | some row =>
    if row.used_at ≠ none then (.invalid, deleteNonce db nonce)
    else if row.expires_at < now then (.expired, deleteNonce db nonce)
    else if max_attempts ≤ row.attempt_count then (.maxAttempts, deleteNonce db nonce)
    else (.ok row.nonce row.user_id row.expires_at, deleteNonce db nonce)

/-- Result of `HubStore.fail_telegram_verification`: the returned dict's
`status` is `invalid`, `expired`, `max_attempts` (with the attempt count) or
`failed` (with the incremented attempt count). -/
inductive FailResult where
  | invalid
  | expired
  | maxAttempts (attempt_count : Int)
  | failed (attempt_count : Int)
deriving Repr, DecidableEq

/-- `UPDATE telegram_verifications SET attempt_count = ? WHERE nonce = ?`. -/
def setAttempt (db : List TelegramVerification) (nonce : String) (a : Int) :
    List TelegramVerification :=
  db.map (fun r => if r.nonce == nonce then { r with attempt_count := a } else r)

/-- `HubStore.fail_telegram_verification` (hub_store.py lines 201-230):
absent nonce is `invalid`; a row past its expiry is deleted and `expired`;
otherwise the counter is incremented, and if the increment reaches
`max_attempts` the row is deleted and `max_attempts` reported, else the new
counter is stored and `failed` reported. -/
def fail_telegram_verification (db : List TelegramVerification) (now : Int)
    (nonce : String) (max_attempts : Int) :
    FailResult × List TelegramVerification :=
  match findNonce db nonce with
  | none => (.invalid, db)
  | some row =>
    if row.expires_at < now then (.expired, deleteNonce db nonce)
    else if max_attempts ≤ row.attempt_count + 1 then
      (.maxAttempts (row.attempt_count + 1), deleteNonce db nonce)
    else
      (.failed (row.attempt_count + 1), setAttempt db nonce (row.attempt_count + 1))

/-- The table after `k` consecutive `fail_telegram_verification` calls on the
same nonce at the same current time. -/
def failCalls (db : List TelegramVerification) (now : Int) (nonce : String)
    (max_attempts : Int) : Nat → List TelegramVerification
  | 0 => db
  | k + 1 =>
    (fail_telegram_verification (failCalls db now nonce max_attempts k)
      now nonce max_attempts).2

/-- The fresh challenge row inserted by `create_telegram_verification`:
attempt counter 0, `used_at` NULL. -/
def freshVerification (nonce user_id : String) (now expires_at : Int) :
    TelegramVerification :=
  ⟨nonce, user_id, now, expires_at, 0, none⟩

/-- The `INSERT ... ON CONFLICT(nonce) DO UPDATE` of
`create_telegram_verification`: replace an existing row with the same nonce
in place, else append the fresh row. -/
def upsertVerification (db : List TelegramVerification)
    (nonce user_id : String) (now expires_at : Int) :
    List TelegramVerification :=
  if db.any (fun r => r.nonce == nonce) then
    db.map (fun r =>
      if r.nonce == nonce then freshVerification nonce user_id now expires_at
      else r)
  else db ++ [freshVerification nonce user_id now expires_at]

/-- `HubStore.create_telegram_verification` (hub_store.py lines 142-160):
first `DELETE FROM telegram_verifications WHERE expires_at < ?` with the
current time, then `DELETE ... WHERE user_id = ?`, then upsert the fresh
nonce row. -/
def create_telegram_verification (db : List TelegramVerification)
    (nonce user_id : String) (now expires_at : Int) :
    List TelegramVerification :=
  upsertVerification
    ((db.filter (fun r => !(decide (r.expires_at < now)))).filter
      (fun r => !(r.user_id == user_id)))
    nonce user_id now expires_at

/-- A row of the `hub_users` table: `user_id` primary key, nullable
`telegram_id` (the linked messaging handle). -/
structure HubUser where
  user_id : String
  created_at : Int
  telegram_id : Option String
deriving Repr, DecidableEq

/-- `HubStore.set_telegram_id` (hub_store.py lines 128-140): if some other
user already owns the handle (`SELECT ... WHERE telegram_id = ? AND
user_id <> ?`), raise `ValueError("telegram_id_already_linked")` without
touching the table; otherwise `UPDATE hub_users SET telegram_id = ? WHERE
user_id = ?`.  The raised-exception path is modelled as `.error` paired with
the unchanged table. -/
def set_telegram_id (db : List HubUser) (user_id telegram_id : String) :
    Except String Unit × List HubUser :=
  match db.find? (fun r =>
      r.telegram_id == some telegram_id && !(r.user_id == user_id)) with
  | some _ => (.error "telegram_id_already_linked", db)
  | none =>
    (.ok (), db.map (fun r =>
      if r.user_id == user_id then { r with telegram_id := some telegram_id }
      else r))

/-- A row of the `oauth_states` table: the CSRF `state` is the primary key. -/
structure OAuthState where
  state : String
  user_id : String
  created_at : Int
  flow : String
deriving Repr, DecidableEq

/-- `HubStore.save_oauth_state` (hub_store.py lines 284-291): a plain INSERT,
so a duplicate state value raises `sqlite3.IntegrityError` (state is the
primary key); otherwise the row is added. -/
def save_oauth_state (db : List OAuthState) (state user_id : String)
    (now : Int) (flow : String) : Except String (List OAuthState) :=
  if db.any (fun r => r.state == state) then .error "IntegrityError"
  else .ok (db ++ [⟨state, user_id, now, flow⟩])

/-- `HubStore.pop_oauth_state` (hub_store.py lines 293-303): look the state
up; if present, delete it and return `{user_id, flow}` (the Python
`str(row[1] or "")` maps an empty or NULL flow to `""`, which on a `String`
field is the field itself); if absent, return `None`. -/
def pop_oauth_state (db : List OAuthState) (state : String) :
    Option (String × String) × List OAuthState :=
  match db.find? (fun r => r.state == state) with
  | none => (none, db)
  | some row =>
    (some (row.user_id, row.flow), db.filter (fun r => !(r.state == state)))

/-- The payload of a session JWT minted by `naver_callback` (main.py lines
527-533): `{sub, iat, exp}`. -/
structure JwtClaims where
  sub : String
  iat : Int
  exp : Int
deriving Repr, DecidableEq

/-- An HS256-signed JWT, modelled as its payload together with the secret it
was signed with: an ideal MAC, where verification with secret `s` succeeds
exactly when the token was produced under `s`. -/
structure SignedJwt where
  claims : JwtClaims
  signedWith : String
deriving Repr, DecidableEq

/-- `jwt.encode(payload, JWT_SECRET, algorithm="HS256")`. -/
def jwt_encode (claims : JwtClaims) (secret : String) : SignedJwt :=
  ⟨claims, secret⟩

/-- `jwt.decode(token, JWT_SECRET, algorithms=["HS256"])` with PyJWT's
default zero leeway: the signature must verify and the registered `exp` claim
raises `ExpiredSignatureError` (a `PyJWTError`) when `exp ≤ now`, so the
token is accepted exactly while `now < exp`. -/
def jwt_decode (tok : SignedJwt) (secret : String) (now : Int) :
    Option JwtClaims :=
  if tok.signedWith == secret && decide (now < tok.claims.exp) then
    some tok.claims
  else none

/-- The `Authorization` header as `_verify_token` sees it after
`_extract_bearer`: absent / non-Bearer / empty (so `_verify_token` returns
`None`), a Bearer credential that does not parse as a JWT, or a parsed JWT. -/
inductive AuthHeader where
  | missing
  | malformed
  | bearer (tok : SignedJwt)
deriving Repr, DecidableEq

/-- What `_verify_token` does: return `None`, raise an `HTTPException`
(status, detail), or return the subject string. -/
inductive VerifyOutcome where
  | noUser
  | httpError (status : Nat) (detail : String)
  | okUser (sub : String)
deriving Repr, DecidableEq

/-- `_verify_token` (main.py lines 97-107): no bearer credential returns
`None`; with one, an empty `JWT_SECRET` raises 500 `jwt_not_configured`;
any `PyJWTError` from decoding — bad signature, expired, or malformed token —
raises the same 401 `unauthorized`; on success the `sub` claim is returned. -/
def verify_token (h : AuthHeader) (secret : String) (now : Int) :
    VerifyOutcome :=
  match h with
  | .missing => .noUser
  | .malformed =>
    if secret = "" then .httpError 500 "jwt_not_configured"
    else .httpError 401 "unauthorized"
  | .bearer tok =>
    if secret = "" then .httpError 500 "jwt_not_configured"
    else
      match jwt_decode tok secret now with
      | none => .httpError 401 "unauthorized"
      | some claims => .okUser claims.sub

/-- The session token minted by `naver_callback` (main.py lines 527-533):
payload `{sub: user_id, iat: now, exp: now + ttl}` signed with `JWT_SECRET`. -/
def mint_session_token (user_id : String) (now ttl : Int) (secret : String) :
    SignedJwt :=
  jwt_encode { sub := user_id, iat := now, exp := now + ttl } secret

/-- `NaverToken` (naver_client.py lines 11-18). -/
structure NaverToken where
  access_token : String
  refresh_token : String
  expires_in : Int
deriving Repr, DecidableEq

/-- `NaverToken.expires_at`: `time.time() + max(0, int(self.expires_in) - 30)`. -/
def NaverToken.expires_at (t : NaverToken) (now : Int) : Int :=
  now + max 0 (t.expires_in - 30)

/-- `_require_key` (main.py lines 82-86): an empty configured `HUB_API_KEY`
short-circuits to success; otherwise any supplied key (including a missing
header, `None`) different from the configured key raises 401 `unauthorized`. -/
def require_key (hub_api_key : String) (api_key : Option String) :
    Except (Nat × String) Unit :=
  if hub_api_key = "" then .ok ()
  else if api_key ≠ some hub_api_key then .error (401, "unauthorized")
  else .ok ()

/-- A row of the `naver_accounts` table: `user_id` primary key. -/
structure NaverAccount where
  user_id : String
  client_id : String
  client_secret : String
  redirect_uri : String
  access_token : String
  refresh_token : String
  token_expires_at : Int
  updated_at : Int
deriving Repr, DecidableEq

/-- A row of the `posts` table: `post_id` primary key. -/
structure Post where
  post_id : String
  user_id : String
  title : String
  content : String
  created_at : Int
deriving Repr, DecidableEq

/-- `HubStore.get_naver_account`: primary-key lookup. -/
def get_naver_account (db : List NaverAccount) (user_id : String) :
    Option NaverAccount :=
  db.find? (fun a => a.user_id == user_id)

/-- `HubStore.get_post`: primary-key lookup. -/
def get_post (db : List Post) (post_id : String) : Option Post :=
  db.find? (fun p => p.post_id == post_id)

/-- `HubStore.get_latest_post`: `ORDER BY created_at DESC LIMIT 1` over the
user's posts (SQLite leaves ties unordered; this embedding keeps the earlier
row on a tie). -/
def get_latest_post (db : List Post) (user_id : String) : Option Post :=
  (db.filter (fun p => p.user_id == user_id)).foldl
    (fun acc p =>
      match acc with
      | none => some p
      | some q => if q.created_at < p.created_at then some p else some q)
    none

/-- `HubStore.upsert_naver_account` (hub_store.py lines 306-345):
`INSERT ... ON CONFLICT(user_id) DO UPDATE` of every column, with
`updated_at` set to the current time. -/
def upsert_naver_account (db : List NaverAccount)
    (user_id client_id client_secret redirect_uri access_token
      refresh_token : String) (token_expires_at now : Int) :
    List NaverAccount :=
  if db.any (fun a => a.user_id == user_id) then
    db.map (fun a =>
      if a.user_id == user_id then
        ⟨user_id, client_id, client_secret, redirect_uri, access_token,
          refresh_token, token_expires_at, now⟩
      else a)
  else
    db ++ [⟨user_id, client_id, client_secret, redirect_uri, access_token,
      refresh_token, token_expires_at, now⟩]

/-- The body of `POST /naver/publish`. -/
structure PublishRequest where
  user_id : String
  title : Option String
  post_id : Option String
deriving Repr, DecidableEq

/-- Outcome of a `naver_publish` call: the HTTP result (an `HTTPException`'s
status and detail, or the provider acknowledgment passed through), the
`naver_accounts` table afterwards, and how many refresh-grant calls the
handler made. -/
structure PublishOutcome where
  result : Except (Nat × String) String
  accounts : List NaverAccount
  refresh_calls : Nat
deriving Repr

/-- `naver_publish` (main.py lines 546-602), with the two outbound provider
calls supplied as parameters: `refreshResult` is what
`NaverClient.refresh_token` would return (`none` models the provider
rejecting the refresh with a 4xx/5xx status, naver_client.py lines 60-78),
and `writeResponse` is the acknowledgment `NaverClient.write_post` would
return.  The handler: absent account or empty stored access token is 400
`naver_not_linked`; an explicit `post_id` must exist (404) and belong to the
user (403), otherwise the latest post is used; an empty title falls back to
the post's title (400 `no_post` when there is no post); empty content is 400
`no_post`; a stored expiry at or before the current time triggers exactly one
refresh — on `none` the call fails 400 `refresh_failed` with the table
untouched, otherwise the refreshed token is upserted; finally the post is
published. -/
def naver_publish (accounts : List NaverAccount) (posts : List Post)
    (req : PublishRequest) (now : Int) (refreshResult : Option NaverToken)
    (writeResponse : String) : PublishOutcome :=
  match get_naver_account accounts req.user_id with
  | none => ⟨.error (400, "naver_not_linked"), accounts, 0⟩
  | some account =>
    if account.access_token = "" then
      ⟨.error (400, "naver_not_linked"), accounts, 0⟩
    else
      match
        (match req.post_id with
          | some pid =>
            match get_post posts pid with
            | none => .error (404, "not_found")
            | some post =>
              if post.user_id ≠ req.user_id then .error (403, "forbidden")
              else .ok (some post)
          | none => .ok (get_latest_post posts req.user_id) :
          Except (Nat × String) (Option Post))
      with
      | .error e => ⟨.error e, accounts, 0⟩
      | .ok post =>
        match
          (if req.title.getD "" = "" then
            match post with
            | none => .error (400, "no_post")
            | some p => .ok p.title
          else .ok (req.title.getD "") : Except (Nat × String) String)
        with
        | .error e => ⟨.error e, accounts, 0⟩
        | .ok _title =>
          if (match post with | some p => p.content | none => "") = "" then
            ⟨.error (400, "no_post"), accounts, 0⟩
          else if account.token_expires_at ≤ now then
            match refreshResult with
            | none => ⟨.error (400, "refresh_failed"), accounts, 1⟩
            | some tok =>
              ⟨.ok writeResponse,
                upsert_naver_account accounts req.user_id account.client_id
                  account.client_secret account.redirect_uri tok.access_token
                  tok.refresh_token (tok.expires_at now) now, 1⟩
          else ⟨.ok writeResponse, accounts, 0⟩

end SnsHub

namespace SnsHub

theorem findNonce_deleteNonce (db : List TelegramVerification) (n : String) :
    findNonce (deleteNonce db n) n = none := by
  unfold findNonce deleteNonce
  rw [List.find?_eq_none]
  intro r hr
  simp only [List.mem_filter] at hr
  simpa using hr.2

/-- After a consume call, whatever its outcome, the nonce is gone from the
table (every branch with a found row deletes it; the absent branch leaves it
absent). -/
theorem consume_removes_nonce (db : List TelegramVerification) (now : Int)
    (n : String) (m : Int) :
    findNonce (consume_telegram_verification db now n m).2 n = none := by
  unfold consume_telegram_verification
  cases h : findNonce db n with
  | none => simp [h]
  | some row =>
    by_cases hu : row.used_at ≠ none
    · simp [h, hu, findNonce_deleteNonce]
    · by_cases he : row.expires_at < now
      · simp [h, hu, he, findNonce_deleteNonce]
      · by_cases ha : m ≤ row.attempt_count
        · simp [h, hu, he, ha, findNonce_deleteNonce]
        · simp [h, hu, he, ha, findNonce_deleteNonce]

/-- A consume call on a nonce that is absent from the table returns `invalid`. -/
theorem consume_absent_invalid (db : List TelegramVerification) (now : Int)
    (n : String) (m : Int) (h : findNonce db n = none) :
    (consume_telegram_verification db now n m).1 = .invalid := by
  unfold consume_telegram_verification
  simp [h]

/-- C1: calling `consume_telegram_verification` twice in sequence on the same
nonce: the second call always returns status `invalid` (the first call deletes
the row whenever it found one), hence at most one of the two calls returns
status `ok`. -/
theorem consume_twice_at_most_one_ok (db : List TelegramVerification)
    (now₁ now₂ : Int) (n : String) (m : Int) :
    (consume_telegram_verification
        (consume_telegram_verification db now₁ n m).2 now₂ n m).1.status
        = "invalid" ∧
      ¬ ((consume_telegram_verification db now₁ n m).1.status = "ok" ∧
         (consume_telegram_verification
             (consume_telegram_verification db now₁ n m).2 now₂ n m).1.status
             = "ok") := by
  have h2 : (consume_telegram_verification
      (consume_telegram_verification db now₁ n m).2 now₂ n m).1 = .invalid :=
    consume_absent_invalid _ _ _ _ (consume_removes_nonce db now₁ n m)
  refine ⟨by rw [h2]; rfl, ?_⟩
  rintro ⟨-, hok⟩
  rw [h2] at hok
  exact absurd hok (by decide)

/-- C8: consuming a challenge whose stored expiry lies strictly before the
current time (and which has not been marked consumed — `used_at` is NULL for
every row the store API ever writes) returns status `expired` and deletes the
row, so no row with that nonce remains. -/
theorem consume_expired_challenge (db : List TelegramVerification) (now : Int)
    (n : String) (m : Int) (row : TelegramVerification)
    (hfind : findNonce db n = some row) (hused : row.used_at = none)
    (hexp : row.expires_at < now) :
    (consume_telegram_verification db now n m).1 = .expired ∧
      findNonce (consume_telegram_verification db now n m).2 n = none := by
  refine ⟨?_, consume_removes_nonce db now n m⟩
  unfold consume_telegram_verification
  simp [hfind, hused, hexp]

/-- Witness for C8 at a concrete store: one challenge row whose expiry 5 lies
before the current time 10. -/
theorem consume_expired_challenge_witness :
    (consume_telegram_verification
        [⟨"n1", "u1", 0, 5, 0, none⟩] 10 "n1" 5).1 = .expired ∧
      findNonce (consume_telegram_verification
        [⟨"n1", "u1", 0, 5, 0, none⟩] 10 "n1" 5).2 "n1" = none :=
  consume_expired_challenge [⟨"n1", "u1", 0, 5, 0, none⟩] 10 "n1" 5
    ⟨"n1", "u1", 0, 5, 0, none⟩ (by decide) rfl (by decide)

set_option linter.unnecessarySimpa false in
theorem findNonce_setAttempt (db : List TelegramVerification) (n : String)
    (a : Int) :
    findNonce (setAttempt db n a) n
      = (findNonce db n).map (fun r => { r with attempt_count := a }) := by
  induction db with
  | nil => rfl
  | cons r rs ih =>
    by_cases h : r.nonce = n
    · simp [findNonce, setAttempt, List.find?_cons, h]
    · simp only [findNonce, setAttempt, List.map_cons, List.find?_cons] at ih ⊢
      have hb : (r.nonce == n) = false := by simpa using h
      simp only [hb, if_false, hb]
      rw [if_neg (by simpa using h)]
      simpa [hb] using ih

/-- Invariant for C3: starting from a row with attempt counter 0 that is not
expired, after `k ≤ max_attempts - 1` failure calls the row is still present
with attempt counter `k`. -/
theorem failCalls_invariant (db : List TelegramVerification)
    (row : TelegramVerification) (now : Int) (n : String) (m : Nat)
    (hfind : findNonce db n = some row) (h0 : row.attempt_count = 0)
    (hexp : ¬ row.expires_at < now) :
    ∀ k : Nat, k ≤ m - 1 →
      findNonce (failCalls db now n (m : Int) k) n
        = some { row with attempt_count := (k : Int) } := by
  intro k
  induction k with
  | zero =>
    intro _
    simp only [Nat.cast_zero]
    have : { row with attempt_count := (0 : Int) } = row := by
      cases row; simp_all
    rw [this]
    exact hfind
  | succ k ih =>
    intro hk
    have hk' : k ≤ m - 1 := Nat.le_of_succ_le hk
    have hfk := ih hk'
    have hlt : ¬ ((m : Int) ≤ (k : Int) + 1) := by
      have h1 : 1 ≤ m := Nat.one_le_iff_ne_zero.mpr (by omega)
      omega
    show findNonce
        (fail_telegram_verification (failCalls db now n (m : Int) k) now n
          (m : Int)).2 n = _
    unfold fail_telegram_verification
    rw [hfk]
    simp only [hexp, if_false, hlt, if_false]
    rw [findNonce_setAttempt, hfk]
    simp [Int.add_comm]

/-- C3: for an unexpired challenge created with attempt counter 0 and any
`max_attempts ≥ 1`, each of the first `max_attempts - 1` consecutive
`fail_telegram_verification` calls returns `failed` with the attempt counter
equal to the call index, and exactly the `max_attempts`-th call returns
`max_attempts` (with counter `max_attempts`) and deletes the row. -/
theorem fail_verification_sequence (db : List TelegramVerification)
    (row : TelegramVerification) (now : Int) (n : String) (m : Nat)
    (hm : 1 ≤ m) (hfind : findNonce db n = some row)
    (h0 : row.attempt_count = 0) (hexp : ¬ row.expires_at < now) :
    (∀ k : Nat, k + 1 < m →
        (fail_telegram_verification (failCalls db now n (m : Int) k) now n
          (m : Int)).1 = .failed ((k : Int) + 1)) ∧
      (fail_telegram_verification (failCalls db now n (m : Int) (m - 1)) now n
        (m : Int)).1 = .maxAttempts (m : Int) ∧
      findNonce (fail_telegram_verification
        (failCalls db now n (m : Int) (m - 1)) now n (m : Int)).2 n = none := by
  have hinv := failCalls_invariant db row now n m hfind h0 hexp
  refine ⟨?_, ?_, ?_⟩
  · intro k hk
    have hfk := hinv k (by omega)
    have hlt : ¬ ((m : Int) ≤ (k : Int) + 1) := by omega
    unfold fail_telegram_verification
    rw [hfk]
    simp [hexp, hlt, h0]
  · have hfk := hinv (m - 1) (Nat.le_refl _)
    have hge : (m : Int) ≤ ((m - 1 : Nat) : Int) + 1 := by omega
    unfold fail_telegram_verification
    rw [hfk]
    simp only [hexp, if_false]
    rw [if_pos (by simpa [h0] using hge)]
    simp only [FailResult.maxAttempts.injEq, h0]
    omega
  · have hfk := hinv (m - 1) (Nat.le_refl _)
    have hge : (m : Int) ≤ ((m - 1 : Nat) : Int) + 1 := by omega
    unfold fail_telegram_verification
    rw [hfk]
    simp only [hexp, if_false]
    rw [if_pos (by simpa [h0] using hge)]
    exact findNonce_deleteNonce _ _

/-- Witness for C3 at a concrete store: one unexpired challenge (expiry 100,
now 10) with counter 0 and `max_attempts = 3`: calls 1 and 2 return `failed`
1 and 2, call 3 returns `max_attempts` and deletes the row. -/
theorem fail_verification_sequence_witness :
    ((fail_telegram_verification
        (failCalls [⟨"n1", "u1", 0, 100, 0, none⟩] 10 "n1" 3 1) 10 "n1" 3).1
        = .failed 2) ∧
      (fail_telegram_verification
        (failCalls [⟨"n1", "u1", 0, 100, 0, none⟩] 10 "n1" 3 2) 10 "n1" 3).1
        = .maxAttempts 3 ∧
      findNonce (fail_telegram_verification
        (failCalls [⟨"n1", "u1", 0, 100, 0, none⟩] 10 "n1" 3 2) 10 "n1" 3).2
        "n1" = none := by
  have h := fail_verification_sequence [⟨"n1", "u1", 0, 100, 0, none⟩]
    ⟨"n1", "u1", 0, 100, 0, none⟩ 10 "n1" 3 (by decide) rfl rfl (by decide)
  exact ⟨by simpa using h.1 1 (by decide), h.2.1, h.2.2⟩

/-- C10: creating a challenge for user `u` with a fresh nonce (the endpoint
generates it with `secrets.token_urlsafe`, so no stored row carries it)
deletes every row whose expiry lies before the current time — whichever user
owns it — and every row of user `u`, inserts the fresh row, and leaves every
row that is neither expired nor owned by `u` in place. -/
theorem create_verification_cleanup (db : List TelegramVerification)
    (n u : String) (now exp : Int)
    (hfresh : ∀ r ∈ db, r.nonce ≠ n) :
    (∀ r ∈ db, r.expires_at < now →
        r ∉ create_telegram_verification db n u now exp) ∧
      (∀ r ∈ db, r.user_id = u →
        r ∉ create_telegram_verification db n u now exp) ∧
      (∀ r ∈ db, ¬ r.expires_at < now → r.user_id ≠ u →
        r ∈ create_telegram_verification db n u now exp) ∧
      freshVerification n u now exp ∈ create_telegram_verification db n u now exp := by
  have hsub : ∀ r ∈ (db.filter (fun r => !(decide (r.expires_at < now)))).filter
      (fun r => !(r.user_id == u)), r ∈ db := by
    intro r hr
    simp only [List.mem_filter] at hr
    exact hr.1.1
  have hany : ((db.filter (fun r => !(decide (r.expires_at < now)))).filter
      (fun r => !(r.user_id == u))).any (fun r => r.nonce == n) = false := by
    rw [List.any_eq_false]
    intro r hr
    simpa using hfresh r (hsub r hr)
  unfold create_telegram_verification upsertVerification
  simp only [hany, Bool.false_eq_true, if_false]
  refine ⟨?_, ?_, ?_, ?_⟩
  · intro r hr hexp hmem
    rw [List.mem_append] at hmem
    rcases hmem with hmem | hmem
    · simp only [List.mem_filter] at hmem
      simpa [hexp] using hmem.1.2
    · simp only [List.mem_singleton] at hmem
      exact hfresh r hr (by rw [hmem]; rfl)
  · intro r hr huser hmem
    rw [List.mem_append] at hmem
    rcases hmem with hmem | hmem
    · simp only [List.mem_filter] at hmem
      simpa [huser] using hmem.2
    · simp only [List.mem_singleton] at hmem
      exact hfresh r hr (by rw [hmem]; rfl)
  · intro r hr hexp huser
    rw [List.mem_append]
    left
    simp only [List.mem_filter]
    exact ⟨⟨hr, by simpa using hexp⟩, by simpa using huser⟩
  · rw [List.mem_append]
    right
    exact List.mem_singleton.mpr rfl

/-- Witness for C10 at a concrete store of three rows: an expired row of
another user is deleted, the creating user's live row is deleted, a live row
of a third user survives, and the fresh row is present. -/
theorem create_verification_cleanup_witness :
    ((⟨"a", "v", 0, 5, 0, none⟩ : TelegramVerification)
        ∉ create_telegram_verification
          [⟨"a", "v", 0, 5, 0, none⟩, ⟨"b", "u", 0, 100, 2, none⟩,
            ⟨"c", "w", 0, 100, 1, none⟩] "n" "u" 10 310) ∧
      ((⟨"b", "u", 0, 100, 2, none⟩ : TelegramVerification)
        ∉ create_telegram_verification
          [⟨"a", "v", 0, 5, 0, none⟩, ⟨"b", "u", 0, 100, 2, none⟩,
            ⟨"c", "w", 0, 100, 1, none⟩] "n" "u" 10 310) ∧
      ((⟨"c", "w", 0, 100, 1, none⟩ : TelegramVerification)
        ∈ create_telegram_verification
          [⟨"a", "v", 0, 5, 0, none⟩, ⟨"b", "u", 0, 100, 2, none⟩,
            ⟨"c", "w", 0, 100, 1, none⟩] "n" "u" 10 310) ∧
      freshVerification "n" "u" 10 310
        ∈ create_telegram_verification
          [⟨"a", "v", 0, 5, 0, none⟩, ⟨"b", "u", 0, 100, 2, none⟩,
            ⟨"c", "w", 0, 100, 1, none⟩] "n" "u" 10 310 := by
  have h := create_verification_cleanup
    [⟨"a", "v", 0, 5, 0, none⟩, ⟨"b", "u", 0, 100, 2, none⟩,
      ⟨"c", "w", 0, 100, 1, none⟩] "n" "u" 10 310 (by decide)
  exact ⟨h.1 _ (by decide) (by decide), h.2.1 _ (by decide) rfl,
    h.2.2.1 _ (by decide) (by decide) (by decide), h.2.2.2⟩

/-- C2: when user `u1`'s row already holds handle `h` and `u2 ≠ u1` tries to
link the same handle, `set_telegram_id` fails with the distinct
`telegram_id_already_linked` condition (surfaced as 409 by
`complete_telegram_verification`, main.py lines 280-284), the table is
returned unchanged, and in particular `u1`'s row still carries `h`. -/
theorem set_telegram_id_second_link_fails (db : List HubUser)
    (u1 u2 handle : String) (row : HubUser) (hmem : row ∈ db)
    (hrow : row.user_id = u1) (htel : row.telegram_id = some handle)
    (hne : u1 ≠ u2) :
    set_telegram_id db u2 handle = (.error "telegram_id_already_linked", db) ∧
      row ∈ (set_telegram_id db u2 handle).2 ∧
      row.telegram_id = some handle := by
  have hp : (fun r : HubUser =>
      r.telegram_id == some handle && !(r.user_id == u2)) row = true := by
    simp [htel, hrow, hne]
  have hex : (db.find? (fun r =>
      r.telegram_id == some handle && !(r.user_id == u2))).isSome := by
    rw [List.find?_isSome]
    exact ⟨row, hmem, hp⟩
  unfold set_telegram_id
  cases hf : db.find? (fun r =>
      r.telegram_id == some handle && !(r.user_id == u2)) with
  | none => rw [hf] at hex; simp at hex
  | some r => exact ⟨rfl, by simpa [set_telegram_id, hf] using hmem, htel⟩

/-- Witness for C2: `u1` holds handle `123456789`; `u2`'s attempt fails with
`telegram_id_already_linked` and the table is unchanged. -/
theorem set_telegram_id_second_link_fails_witness :
    set_telegram_id [⟨"u1", 0, some "123456789"⟩, ⟨"u2", 0, none⟩]
        "u2" "123456789"
      = (.error "telegram_id_already_linked",
          [⟨"u1", 0, some "123456789"⟩, ⟨"u2", 0, none⟩]) ∧
      (⟨"u1", 0, some "123456789"⟩ : HubUser) ∈
        (set_telegram_id [⟨"u1", 0, some "123456789"⟩, ⟨"u2", 0, none⟩]
          "u2" "123456789").2 ∧
      (⟨"u1", 0, some "123456789"⟩ : HubUser).telegram_id = some "123456789" :=
  set_telegram_id_second_link_fails
    [⟨"u1", 0, some "123456789"⟩, ⟨"u2", 0, none⟩] "u1" "u2" "123456789"
    ⟨"u1", 0, some "123456789"⟩ (by decide) rfl rfl (by decide)

/-- C4: after `save_oauth_state` succeeds for a state value, the first
`pop_oauth_state` call with that value returns the saved `{user_id, flow}`
pair and deletes the row, and a second `pop_oauth_state` on the result
returns `none`. -/
theorem pop_oauth_state_single_use (db db' : List OAuthState)
    (st u flow : String) (now : Int)
    (hsave : save_oauth_state db st u now flow = .ok db') :
    pop_oauth_state db' st = (some (u, flow), db) ∧
      (pop_oauth_state (pop_oauth_state db' st).2 st).1 = none := by
  unfold save_oauth_state at hsave
  by_cases hany : db.any (fun r => r.state == st) = true
  · rw [if_pos hany] at hsave; exact absurd hsave (by simp)
  · rw [if_neg hany] at hsave
    have hdb' : db' = db ++ [⟨st, u, now, flow⟩] := by
      cases hsave; rfl
    have hany' : db.any (fun r => r.state == st) = false := by
      simpa using hany
    have hnone : db.find? (fun r => r.state == st) = none := by
      rw [List.find?_eq_none]
      intro r hr
      simpa using List.any_eq_false.mp hany' r hr
    have hfind : db'.find? (fun r => r.state == st)
        = some ⟨st, u, now, flow⟩ := by
      rw [hdb', List.find?_append, hnone]
      simp
    have hfilter : db'.filter (fun r => !(r.state == st)) = db := by
      rw [hdb', List.filter_append]
      have h1 : db.filter (fun r => !(r.state == st)) = db := by
        rw [List.filter_eq_self]
        intro r hr
        simpa using List.any_eq_false.mp hany' r hr
      simp [h1]
    have hpop1 : pop_oauth_state db' st = (some (u, flow), db) := by
      unfold pop_oauth_state
      rw [hfind, hfilter]
    refine ⟨hpop1, ?_⟩
    rw [hpop1]
    unfold pop_oauth_state
    rw [hnone]

/-- Witness for C4 at the empty store: save state `s` for `alice` in the
`login` flow, pop it once (returns the data), pop it again (not found). -/
theorem pop_oauth_state_single_use_witness :
    pop_oauth_state [⟨"s", "alice", 0, "login"⟩] "s"
        = (some ("alice", "login"), []) ∧
      (pop_oauth_state (pop_oauth_state [⟨"s", "alice", 0, "login"⟩] "s").2
        "s").1 = none :=
  pop_oauth_state_single_use [] [⟨"s", "alice", 0, "login"⟩]
    "s" "alice" "login" 0 rfl

/-- C5: with a configured secret, verifying the session token minted by
`naver_callback` for `sub` with lifetime `ttl` at issue time `now` succeeds
and returns exactly `sub` at every time strictly before `now + ttl`, and at
every time strictly after `now + ttl` fails with 401 `unauthorized` — the
same outcome as a token signed under a different secret or a malformed
bearer credential. -/
theorem verify_token_roundtrip (sub secret : String) (now ttl t : Int)
    (hsec : secret ≠ "") :
    (t < now + ttl →
        verify_token (.bearer (mint_session_token sub now ttl secret))
          secret t = .okUser sub) ∧
      (now + ttl < t →
        verify_token (.bearer (mint_session_token sub now ttl secret))
          secret t = .httpError 401 "unauthorized") ∧
      (∀ other : String, other ≠ secret →
        verify_token (.bearer (mint_session_token sub now ttl other))
          secret t = .httpError 401 "unauthorized") ∧
      verify_token .malformed secret t = .httpError 401 "unauthorized" := by
  refine ⟨?_, ?_, ?_, ?_⟩
  · intro ht
    simp [verify_token, hsec, jwt_decode, mint_session_token, jwt_encode, ht]
  · intro ht
    have : ¬ (t < now + ttl) := by omega
    simp [verify_token, hsec, jwt_decode, mint_session_token, jwt_encode, this]
  · intro other hother
    simp [verify_token, hsec, jwt_decode, mint_session_token, jwt_encode,
      hother]
  · simp [verify_token, hsec]

/-- Witness for C5: subject `alice`, secret `s`, issued at 0 with ttl 3600:
accepted at 100 with subject `alice`; rejected with 401 at 4000; a token
signed under secret `x` and a malformed credential also yield 401. -/
theorem verify_token_roundtrip_witness :
    verify_token (.bearer (mint_session_token "alice" 0 3600 "s")) "s" 100
        = .okUser "alice" ∧
      verify_token (.bearer (mint_session_token "alice" 0 3600 "s")) "s" 4000
        = .httpError 401 "unauthorized" ∧
      verify_token (.bearer (mint_session_token "alice" 0 3600 "x")) "s" 100
        = .httpError 401 "unauthorized" ∧
      verify_token .malformed "s" 100 = .httpError 401 "unauthorized" :=
  ⟨(verify_token_roundtrip "alice" "s" 0 3600 100 (by decide)).1 (by decide),
    (verify_token_roundtrip "alice" "s" 0 3600 4000 (by decide)).2.1
      (by decide),
    (verify_token_roundtrip "alice" "s" 0 3600 100 (by decide)).2.2.1 "x"
      (by decide),
    (verify_token_roundtrip "alice" "s" 0 3600 100 (by decide)).2.2.2⟩

/-- Counterexample for C7 as stated: at `expires_in = 0` the stored expiry is
`now` (the margin is clamped at zero), not `now + 0 - 30`. -/
theorem expires_at_margin_counterexample :
    NaverToken.expires_at ⟨"a", "r", 0⟩ 1000 ≠ 1000 + 0 - 30 := by decide

/-- C7 (amended): the stored expiry equals `now + expires_in − 30` whenever
the declared lifetime is at least the 30-second margin; for shorter declared
lifetimes the subtraction is clamped at zero and the expiry equals `now`. -/
theorem expires_at_clamped_margin (t : NaverToken) (now : Int) :
    (30 ≤ t.expires_in →
        t.expires_at now = now + t.expires_in - 30) ∧
      (t.expires_in ≤ 30 → t.expires_at now = now) := by
  unfold NaverToken.expires_at
  constructor <;> intro h <;> omega

/-- Witness for C7 (amended): a 3600-second lifetime at `now = 1000` stores
expiry 4570; a 10-second lifetime stores expiry 1000. -/
theorem expires_at_clamped_margin_witness :
    NaverToken.expires_at ⟨"a", "r", 3600⟩ 1000 = 1000 + 3600 - 30 ∧
      NaverToken.expires_at ⟨"a", "r", 10⟩ 1000 = 1000 :=
  ⟨(expires_at_clamped_margin ⟨"a", "r", 3600⟩ 1000).1 (by decide),
    (expires_at_clamped_margin ⟨"a", "r", 10⟩ 1000).2 (by decide)⟩

/-- C9: `_require_key` raises 401 `unauthorized` exactly when the configured
`HUB_API_KEY` is non-empty and the supplied key differs from it; with an
empty configured key every request passes, whatever key (or none) was sent. -/
theorem require_key_iff (hub_api_key : String) (api_key : Option String) :
    (require_key hub_api_key api_key = .error (401, "unauthorized")
        ↔ (hub_api_key ≠ "" ∧ api_key ≠ some hub_api_key)) ∧
      (hub_api_key = "" → require_key hub_api_key api_key = .ok ()) := by
  constructor
  · unfold require_key
    by_cases h1 : hub_api_key = "" <;> by_cases h2 : api_key = some hub_api_key
      <;> simp [h1, h2]
  · intro h1
    unfold require_key
    rw [if_pos h1]

/-- Witness for C9: with configured key `k`, a missing key is rejected with
401 while the matching key passes; with an empty configured key, an arbitrary
wrong key still passes. -/
theorem require_key_iff_witness :
    require_key "k" none = .error (401, "unauthorized") ∧
      ¬ require_key "k" (some "k") = .error (401, "unauthorized") ∧
      require_key "" (some "wrong") = .ok () := by
  refine ⟨?_, ?_, (require_key_iff "" (some "wrong")).2 rfl⟩
  · exact (require_key_iff "k" none).1.mpr ⟨by decide, by decide⟩
  · intro h
    have := (require_key_iff "k" (some "k")).1.mp h
    exact this.2 rfl

/-- C6: a publish for a user whose stored account has its token expiry in the
past (with a non-empty stored access token and a latest post with content, so
the handler reaches the token stage) makes exactly one refresh attempt; when
the provider rejects the refresh (`refresh_token` returns no result), the
call fails with 400 `refresh_failed` and the stored `naver_accounts` table is
returned unchanged — the upsert on the success path is never executed. -/
theorem naver_publish_refresh_failed_frame (accounts : List NaverAccount)
    (posts : List Post) (req : PublishRequest) (now : Int)
    (account : NaverAccount) (post : Post) (writeResponse : String)
    (hacct : get_naver_account accounts req.user_id = some account)
    (htok : account.access_token ≠ "")
    (hexp : account.token_expires_at < now)
    (hpid : req.post_id = none)
    (hlatest : get_latest_post posts req.user_id = some post)
    (hcontent : post.content ≠ "") :
    naver_publish accounts posts req now none writeResponse
      = ⟨.error (400, "refresh_failed"), accounts, 1⟩ := by
  have hle : account.token_expires_at ≤ now := le_of_lt hexp
  unfold naver_publish
  rw [hacct]
  simp only [htok, if_neg, hpid, hlatest]
  by_cases ht : req.title.getD "" = ""
  · simp [ht, hcontent, hle]
  · simp [ht, hcontent, hle]

/-- Witness for C6: user `u` has an account whose token expired at 100, the
current time is 200, and their latest post `p1` has content; the publish with
a rejected refresh returns 400 `refresh_failed`, leaves the account row
as it was, and made exactly one refresh call. -/
theorem naver_publish_refresh_failed_frame_witness :
    naver_publish [⟨"u", "cid", "sec", "uri", "tok", "ref", 100, 0⟩]
        [⟨"p1", "u", "hello", "body", 10⟩] ⟨"u", none, none⟩ 200 none "ack"
      = ⟨.error (400, "refresh_failed"),
          [⟨"u", "cid", "sec", "uri", "tok", "ref", 100, 0⟩], 1⟩ :=
  naver_publish_refresh_failed_frame
    [⟨"u", "cid", "sec", "uri", "tok", "ref", 100, 0⟩]
    [⟨"p1", "u", "hello", "body", 10⟩] ⟨"u", none, none⟩ 200
    ⟨"u", "cid", "sec", "uri", "tok", "ref", 100, 0⟩
    ⟨"p1", "u", "hello", "body", 10⟩ "ack" rfl (by decide) (by decide) rfl
    rfl (by decide)

end SnsHub
